import Mathlib

set_option maxHeartbeats 1000000

/-
Verification of the SAML ↔ Light translation core of django-eidas-proxy-service.

The module eidas_node/saml.py is not present in the source tree available here
(only its test suite eidas_node/tests/test_saml.py is), so the functions below
are shallow models built from the natural-language specification, with every
behaviour that the test suite pins down (error messages, validation paths,
expected result objects, expected exception classes) taken from the tests.
-/

namespace EidasNode

/-- Modelled from the spec: the XML Core primitive.  An element has a
namespace-qualified tag (rendered here in the prefixed form used by Q_NAMES,
e.g. "saml2p:Response"), a list of attributes, optional text content and a
list of child elements. -/
inductive Xml where
  | mk (tag : String) (attrs : List (String × String)) (text : Option String)
       (children : List Xml)

def Xml.tag : Xml → String
  | .mk t _ _ _ => t

def Xml.attrs : Xml → List (String × String)
  | .mk _ a _ _ => a

def Xml.text : Xml → Option String
  | .mk _ _ x _ => x

def Xml.children : Xml → List Xml
  | .mk _ _ _ c => c

/-- Look up an attribute value by name, as `element.get(name)` does. -/
def getAttr (name : String) (attrs : List (String × String)) : Option String :=
  (attrs.find? (fun p => p.1 = name)).map Prod.snd

/-- An apostrophe character, used when rendering quoted names in messages. -/
def sq : String := "\x27"

/-- Render a name the way `repr` renders it inside error messages. -/
def quoted (s : String) : String := sq ++ s ++ sq

/-- Modelled from the spec: the message of the wrong-root-element failure,
pinned by test_create_light_response_wrong_element (no trailing period). -/
def wrongRootMsg (t : String) : String := "Wrong root element: " ++ quoted t

/-- Modelled from the spec: the message of the unexpected-element failure,
pinned by the test suite (trailing period). -/
def unexpectedMsg (t : String) : String := "Unexpected element: " ++ quoted t ++ "."

/-- Modelled from the spec: the missing-assertion failure message, pinned by
test_create_light_response_missing_decrypted_assertion. -/
def missingAssertionMsg : String := "Missing assertion element."

/-- Modelled from the spec: the Validation Path Tracker renders the chain of
qualified element names root-first as a concatenation of angle-bracket names. -/
def renderPath (path : List String) : String :=
  path.foldl (fun acc t => acc ++ "<" ++ t ++ ">") ""

/-- Modelled from the spec: a ValidationError carries the path from the
document root to the offending node, and a message. -/
structure ValidationError where
  path : List String
  message : String
deriving DecidableEq, Repr

/-- Modelled from the spec: LevelOfAssurance enum (constants.py is not in the
source tree). -/
inductive LevelOfAssurance where
  | low
  | substantial
  | high
deriving DecidableEq, Repr

/-- The eIDAS URI of a level of assurance. -/
def LevelOfAssurance.uri : LevelOfAssurance → String
  | .low => "http://eidas.europa.eu/LoA/low"
  | .substantial => "http://eidas.europa.eu/LoA/substantial"
  | .high => "http://eidas.europa.eu/LoA/high"

/-- Parse a level-of-assurance URI; unknown URIs yield none. -/
def loaFromUri (u : String) : Option LevelOfAssurance :=
  if u = "http://eidas.europa.eu/LoA/low" then some .low
  else if u = "http://eidas.europa.eu/LoA/substantial" then some .substantial
  else if u = "http://eidas.europa.eu/LoA/high" then some .high
  else none

/-- The SAML top-level success status URI. -/
def SUCCESS_URI : String := "urn:oasis:names:tc:SAML:2.0:status:Success"

/-- Modelled from the spec: the Status value object; `failure` is true unless
the status code is Success.  The status code is kept as the raw SAML URI. -/
structure Status where
  failure : Bool := true
  status_code : Option String := none
  sub_status_code : Option String := none
  status_message : Option String := none
deriving DecidableEq, Repr

/-- Modelled from the spec: the LightResponse value object (models.py is not
in the source tree).  Attributes map an attribute URI to an ordered list of
string values; keys are unique. -/
structure LightResponse where
  id : Option String := none
  in_response_to_id : Option String := none
  issuer : Option String := none
  ip_address : Option String := none
  level_of_assurance : Option LevelOfAssurance := none
  status : Option Status := none
  attributes : List (String × List String) := []
deriving DecidableEq, Repr

/-- First nested sub-StatusCode value inside a StatusCode element; any other
children of StatusCode are tolerated (first of the three tolerant locations
of the spec). -/
def findSubStatusCode : List Xml → Option String
  | [] => none
  | c :: rest =>
    if c.tag = "saml2p:StatusCode" then getAttr ("Value") c.attrs
    else findSubStatusCode rest

/-- Modelled from the spec: walk the children of saml2p:Status.  StatusCode
yields the status code (and a nested sub status code), StatusMessage the
message; any other child is an unexpected element. -/
def parseStatusChildren (path : List String) : List Xml → Status → Except ValidationError Status
  | [], st => .ok st
  | c :: rest, st =>
    if c.tag = "saml2p:StatusCode" then
      let code := getAttr ("Value") c.attrs
      parseStatusChildren path rest
        { st with
          status_code := code
          sub_status_code := findSubStatusCode c.children
          failure := !(code == some SUCCESS_URI) }
    else if c.tag = "saml2p:StatusMessage" then
      parseStatusChildren path rest { st with status_message := c.text }
    else
      .error ⟨path ++ [c.tag], unexpectedMsg c.tag⟩

/-- Modelled from the spec: walk the children of saml2:SubjectConfirmation;
SubjectConfirmationData supplies the optional ip_address from its Address
attribute; anything else is unexpected. -/
def parseSubjectConfirmation (path : List String) :
    List Xml → LightResponse → Except ValidationError LightResponse
  | [], r => .ok r
  | c :: rest, r =>
    if c.tag = "saml2:SubjectConfirmationData" then
      let r2 :=
        match getAttr ("Address") c.attrs with
        | some a => { r with ip_address := some a }
        | none => r
      parseSubjectConfirmation path rest r2
    else
      .error ⟨path ++ [c.tag], unexpectedMsg c.tag⟩

/-- Modelled from the spec: walk the children of saml2:Subject; NameID and
SubjectConfirmation are the expected children; anything else is unexpected. -/
def parseSubject (path : List String) :
    List Xml → LightResponse → Except ValidationError LightResponse
  | [], r => .ok r
  | c :: rest, r =>
    if c.tag = "saml2:NameID" then
      parseSubject path rest r
    else if c.tag = "saml2:SubjectConfirmation" then
      match parseSubjectConfirmation (path ++ [c.tag]) c.children r with
      | .error e => .error e
      | .ok r2 => parseSubject path rest r2
    else
      .error ⟨path ++ [c.tag], unexpectedMsg c.tag⟩

/-- First AuthnContextClassRef inside an AuthnContext element; other children
of AuthnContext are tolerated (third tolerant location of the spec). -/
def findClassRef : List Xml → Option Xml
  | [] => none
  | c :: rest => if c.tag = "saml2:AuthnContextClassRef" then some c else findClassRef rest

/-- First AuthnContext inside an AuthnStatement element; other children of
AuthnStatement are tolerated (second tolerant location of the spec). -/
def findAuthnContext : List Xml → Option Xml
  | [] => none
  | c :: rest => if c.tag = "saml2:AuthnContext" then some c else findAuthnContext rest

/-- Modelled from the spec: the level of assurance is parsed from the
AuthnContextClassRef URI inside AuthnStatement/AuthnContext; unknown URIs
fail validation.  Extra children of AuthnStatement and of AuthnContext are
tolerated. -/
def parseAuthnStatement (path : List String) (children : List Xml)
    (r : LightResponse) : Except ValidationError LightResponse :=
  match findAuthnContext children with
  | none => .ok r
  | some ctx =>
    match findClassRef ctx.children with
    | none => .ok r
    | some ref =>
      match loaFromUri (ref.text.getD ("")) with
      | some loa => .ok { r with level_of_assurance := some loa }
      | none =>
        .error ⟨path ++ [ctx.tag, ref.tag],
                "Unsupported level of assurance: " ++ quoted (ref.text.getD ("")) ++ "."⟩

/-- Modelled from the spec: children of an saml2:Attribute must all be
saml2:AttributeValue elements; their text contents are the ordered values. -/
def parseAttributeValues (path : List String) :
    List Xml → Except ValidationError (List String)
  | [] => .ok []
  | c :: rest =>
    if c.tag = "saml2:AttributeValue" then
      match parseAttributeValues path rest with
      | .error e => .error e
      | .ok vs => .ok (c.text.getD ("") :: vs)
    else
      .error ⟨path ++ [c.tag], unexpectedMsg c.tag⟩

/-- Modelled from the spec: children of saml2:AttributeStatement must all be
saml2:Attribute elements; the Name attribute is the URI key (the tests show a
missing Name does not fail before the children are walked, so it is read, not
checked); duplicate attribute names are a validation error; any other child
is an unexpected element. -/
def parseAttributes (path : List String) :
    List Xml → List (String × List String) → Except ValidationError (List (String × List String))
  | [], acc => .ok acc
  | c :: rest, acc =>
    if c.tag = "saml2:Attribute" then
      let name := (getAttr ("Name") c.attrs).getD ("")
      if acc.any (fun p => p.1 = name) then
        .error ⟨path ++ [c.tag], "Duplicate attribute: " ++ quoted name ++ "."⟩
      else
        match parseAttributeValues (path ++ [c.tag]) c.children with
        | .error e => .error e
        | .ok vs => parseAttributes path rest (acc ++ [(name, vs)])
    else
      .error ⟨path ++ [c.tag], unexpectedMsg c.tag⟩

/-- Modelled from the spec: walk the children of an saml2:Assertion.  Issuer
overrides the response-level issuer; Subject, AuthnStatement and
AttributeStatement are handled by the parsers above; anything else is an
unexpected element.  Presence checks for the required assertion elements are
not modelled; no claim checked here depends on them. -/
def parseAssertionChildren (path : List String) :
    List Xml → LightResponse → Except ValidationError LightResponse
  | [], r => .ok r
  | c :: rest, r =>
    if c.tag = "saml2:Issuer" then
      parseAssertionChildren path rest { r with issuer := c.text }
    else if c.tag = "saml2:Subject" then
      match parseSubject (path ++ [c.tag]) c.children r with
      | .error e => .error e
      | .ok r2 => parseAssertionChildren path rest r2
    else if c.tag = "saml2:AuthnStatement" then
      match parseAuthnStatement (path ++ [c.tag]) c.children r with
      | .error e => .error e
      | .ok r2 => parseAssertionChildren path rest r2
    else if c.tag = "saml2:AttributeStatement" then
      match parseAttributes (path ++ [c.tag]) c.children r.attributes with
      | .error e => .error e
      | .ok atts => parseAssertionChildren path rest { r with attributes := atts }
    else
      .error ⟨path ++ [c.tag], unexpectedMsg c.tag⟩

/-- Modelled from the spec: walk the children of the saml2p:Response root in
document order.  Issuer feeds the response issuer, Status the status value;
a plaintext Assertion, or an EncryptedAssertion whose single child (after
decryption, performed earlier) must be exactly one Assertion, is traversed by
parseAssertionChildren; anything else is an unexpected element.  The repo's
failed-response test (expected failed light response with level_of_assurance
LOW) shows the walk does not skip the assertion on a failed status, so no
status gate is modelled here. -/
def parseResponseChildren : List Xml → LightResponse → Except ValidationError LightResponse
  | [], r => .ok r
  | c :: rest, r =>
    if c.tag = "saml2:Issuer" then
      parseResponseChildren rest { r with issuer := c.text }
    else if c.tag = "saml2p:Status" then
      match parseStatusChildren ["saml2p:Response", c.tag] c.children {} with
      | .error e => .error e
      | .ok st => parseResponseChildren rest { r with status := some st }
    else if c.tag = "saml2:Assertion" then
      match parseAssertionChildren ["saml2p:Response", c.tag] c.children r with
      | .error e => .error e
      | .ok r2 => parseResponseChildren rest r2
    else if c.tag = "saml2:EncryptedAssertion" then
      match c.children with
      | [] => .error ⟨["saml2p:Response", c.tag], missingAssertionMsg⟩
      | a :: more =>
        if a.tag = "saml2:Assertion" then
          match more with
          | [] =>
            match parseAssertionChildren ["saml2p:Response", c.tag, a.tag] a.children r with
            | .error e => .error e
            | .ok r2 => parseResponseChildren rest r2
          | b :: _ => .error ⟨["saml2p:Response", c.tag, b.tag], unexpectedMsg b.tag⟩
        else
          .error ⟨["saml2p:Response", c.tag, a.tag], unexpectedMsg a.tag⟩
    else
      .error ⟨["saml2p:Response", c.tag], unexpectedMsg c.tag⟩

/-- Modelled from the spec: SAMLResponse.create_light_response.  The document
root must be saml2p:Response, otherwise a wrong-root-element failure naming
the actual root tag; ID and InResponseTo come from the root attributes; the
children are walked by parseResponseChildren. -/
def create_light_response (doc : Xml) : Except ValidationError LightResponse :=
  if doc.tag = "saml2p:Response" then
    parseResponseChildren doc.children
      { id := getAttr ("ID") doc.attrs
        in_response_to_id := getAttr ("InResponseTo") doc.attrs }
  else
    .error ⟨[doc.tag], wrongRootMsg doc.tag⟩

mutual

/-- Does the document contain an element with the given tag (at any depth,
the root included)? -/
def containsTag (t : String) : Xml → Bool
  | .mk tg _ _ ch => tg == t || containsTagList t ch

/-- List form of containsTag. -/
def containsTagList (t : String) : List Xml → Bool
  | [] => false
  | c :: rest => containsTag t c || containsTagList t rest

end

/-- Serialize an attribute list. -/
def dumpAttrs : List (String × String) → String
  | [] => ""
  | (k, v) :: rest => " " ++ k ++ "=" ++ quoted v ++ dumpAttrs rest

mutual

/-- Modelled from the spec: canonical serialization of a document (dump_xml);
the exact byte format is irrelevant to the claims, only that it is a function
of the tree. -/
def dumpXml : Xml → String
  | .mk t a x ch =>
    "<" ++ t ++ dumpAttrs a ++ ">" ++ x.getD ("") ++ dumpChildrenAux ch ++ "</" ++ t ++ ">"

/-- Serialize a list of child elements. -/
def dumpChildrenAux : List Xml → String
  | [] => ""
  | c :: rest => dumpXml c ++ dumpChildrenAux rest

end

/-- The XML declaration emitted by dump_xml, as pinned by the test suite. -/
def xmlDeclaration : String :=
  "<?xml version=" ++ quoted ("1.0") ++ " encoding=" ++ quoted ("utf-8") ++
    " standalone=" ++ quoted ("yes") ++ "?>\n"

/-- The error raised by decryption.  The repository's own test
test_decrypt_xml_with_document_encrypted_wrong_key expects the underlying
xmlsec library error (xmlsec.Error) on a key mismatch; the spec's taxonomy
instead names a dedicated DecryptionError for every decryption failure, and
that constructor is kept here so the spec's claim can be stated and compared
against the behaviour the tests pin. -/
inductive DecryptError where
  | xmlsecError
  | decryptionError
deriving DecidableEq, Repr

/-- First xenc:EncryptedData child of an element. -/
def findEncryptedData : List Xml → Option Xml
  | [] => none
  | c :: rest =>
    if c.tag = "xenc:EncryptedData" then some c else findEncryptedData rest

/-- Modelled from the spec: decryption of one child of the response root.
The cryptographic primitive (key unwrap, cipher decryption, parse of the
plaintext bytes) is abstracted: the recipient key referenced from the
key-info is modelled as the Recipient attribute of the EncryptedData
element, and its ciphertext is modelled by the children of EncryptedData —
a single child stands for a ciphertext whose plaintext is that well-formed
element, anything else stands for malformed ciphertext or plaintext.  A key
mismatch fails with the xmlsec library error (as the repository's test
expects); a malformed payload fails with the spec's DecryptionError.  On
success the EncryptedData is replaced inside the EncryptedAssertion wrapper
by the decrypted assertion, in place. -/
def decryptOne (key : String) (c : Xml) : Except DecryptError Xml :=
  if c.tag = "saml2:EncryptedAssertion" then
    match findEncryptedData c.children with
    | none => .ok c
    | some ed =>
      if key = (getAttr ("Recipient") ed.attrs).getD ("") then
        match ed.children with
        | [p] => .ok (.mk c.tag c.attrs c.text [p])
        | _ => .error .decryptionError
      else .error .xmlsecError
  else .ok c

/-- Decrypt each child of the response root in order. -/
def decryptChildren (key : String) : List Xml → Except DecryptError (List Xml)
  | [] => .ok []
  | c :: rest =>
    match decryptOne key c with
    | .error e => .error e
    | .ok c2 =>
      match decryptChildren key rest with
      | .error e => .error e
      | .ok rest2 => .ok (c2 :: rest2)

/-- Modelled from the spec: decrypt_xml(document, key).  Walks the children
of the document root and decrypts every EncryptedAssertion/EncryptedData
subtree; children without encrypted content are left untouched. -/
def decrypt_xml (doc : Xml) (key : String) : Except DecryptError Xml :=
  match decryptChildren key doc.children with
  | .error e => .error e
  | .ok ch => .ok (.mk doc.tag doc.attrs doc.text ch)

/-- The first EncryptedData carried by an EncryptedAssertion child, in
document order — the subtree decrypt_xml decrypts first. -/
def firstEncryptedData : List Xml → Option Xml
  | [] => none
  | c :: rest =>
    if c.tag = "saml2:EncryptedAssertion" then
      match findEncryptedData c.children with
      | some ed => some ed
      | none => firstEncryptedData rest
    else firstEncryptedData rest

/-- Modelled from the spec: the SAMLRequest wrapper pairing a parsed document
with an optional relay state. -/
structure SAMLRequest where
  document : Option Xml := none
  relay_state : Option String := none

/-- Modelled from the spec: the SAMLResponse wrapper pairing a parsed document
with an optional relay state. -/
structure SAMLResponse where
  document : Option Xml := none
  relay_state : Option String := none

/-- Render an optional string the way Python repr renders it inside the
wrappers' string form: None, or the value in single quotes. -/
def reprOptStr : Option String → String
  | none => "None"
  | some s => quoted s

/-- Modelled from the spec: the string form of the SAML wrappers, pinned by
the test suite: relay_state followed by the serialized document, with None
for absent values. -/
def wrapperInfo (document : Option Xml) (relay : Option String) : String :=
  "relay_state = " ++ reprOptStr relay ++ ", document = " ++
    (match document with
     | none => "None"
     | some d => xmlDeclaration ++ dumpXml d ++ "\n")

/-- String conversion of a SAMLRequest wrapper. -/
def SAMLRequest.str (r : SAMLRequest) : String := wrapperInfo r.document r.relay_state

/-- String conversion of a SAMLResponse wrapper. -/
def SAMLResponse.str (r : SAMLResponse) : String := wrapperInfo r.document r.relay_state

/-- create_light_response on the wrapper: parse the wrapped document. -/
def SAMLResponse.create_light_response_of (r : SAMLResponse) :
    Option (Except ValidationError LightResponse) :=
  r.document.map create_light_response

/-- Modelled from the spec: the Attribute Dictionary — static mapping from
eIDAS attribute URI to friendly name; the subset exercised by the test suite
(the natural-person mandatory attributes) is listed. -/
def ATTRIBUTE_MAP : List (String × String) :=
  [("http://eidas.europa.eu/attributes/naturalperson/PersonIdentifier", "PersonIdentifier"),
   ("http://eidas.europa.eu/attributes/naturalperson/CurrentFamilyName", "FamilyName"),
   ("http://eidas.europa.eu/attributes/naturalperson/CurrentGivenName", "FirstName"),
   ("http://eidas.europa.eu/attributes/naturalperson/DateOfBirth", "DateOfBirth")]

/-- The fixed eIDAS URI name-format constant, pinned by the test suite. -/
def NAME_FORMAT_URI : String := "urn:oasis:names:tc:SAML:2.0:attrname-format:uri"

/-- Dictionary lookup of a friendly name. -/
def lookupFriendly (uri : String) : Option String :=
  (ATTRIBUTE_MAP.find? (fun p => p.1 = uri)).map Prod.snd

/-- The trailing path segment of an attribute URI. -/
def trailingSegment (uri : String) : String :=
  ((uri.splitOn ("/")).getLast?).getD uri

/-- A boolean rendered as the literal string true/false. -/
def boolAttr (b : Bool) : String := if b then "true" else "false"

/-- Modelled from the spec: create_eidas_attribute(parent, attribute_uri,
required) appends (and returns) a RequestedAttribute child under parent with
Name = the URI, FriendlyName from the dictionary when known and otherwise the
trailing path segment of the URI, the fixed NameFormat constant, and
isRequired rendered as true/false.  It is total: the result is the updated
parent paired with the new child. -/
def create_eidas_attribute (parent : Xml) (uri : String) (required : Bool) :
    Xml × Xml :=
  let friendly := (lookupFriendly uri).getD (trailingSegment uri)
  let e : Xml := .mk ("eidas:RequestedAttribute")
    [("Name", uri), ("FriendlyName", friendly),
     ("NameFormat", NAME_FORMAT_URI), ("isRequired", boolAttr required)] none []
  (.mk parent.tag parent.attrs parent.text (parent.children ++ [e]), e)

/-- Modelled from the spec: the LightRequest value object (models.py is not
in the source tree); requested attributes are an ordered sequence of
attribute-URI and required-flag pairs. -/
structure LightRequest where
  id : String := ""
  issuer : Option String := none
  level_of_assurance : LevelOfAssurance := .low
  requested_attributes : List (String × Bool) := []
deriving DecidableEq, Repr

/-- Append one RequestedAttribute per requested attribute under a container,
via create_eidas_attribute. -/
def addRequestedAttributes : List (String × Bool) → Xml → Xml
  | [], container => container
  | (uri, req) :: rest, container =>
    addRequestedAttributes rest (create_eidas_attribute container uri req).1

/-- Modelled from the spec: SAMLRequest.from_light_request(light_request,
destination, issue_instant).  Pure and deterministic given its inputs; the
issue instant is injected (already formatted), never read from a clock.
Produces an AuthnRequest with ID, IssueInstant and Destination attributes,
an Issuer child, the requested attributes built via create_eidas_attribute,
and a RequestedAuthnContext carrying the level-of-assurance URI; the result
pairs the document with no relay state. -/
def from_light_request (lr : LightRequest) (destination : String)
    (issueInstant : String) : SAMLRequest :=
  let reqAttrs := addRequestedAttributes lr.requested_attributes
    (.mk ("eidas:RequestedAttributes") [] none [])
  let doc : Xml := .mk ("saml2p:AuthnRequest")
    [("ID", lr.id), ("IssueInstant", issueInstant), ("Destination", destination)]
    none
    [.mk ("saml2:Issuer") [] lr.issuer [],
     .mk ("saml2p:Extensions") [] none [reqAttrs],
     .mk ("saml2p:RequestedAuthnContext") [] none
       [.mk ("saml2:AuthnContextClassRef") [] (some lr.level_of_assurance.uri) []]]
  { document := some doc, relay_state := none }

/-- Decidable equality of fallible results, for evaluating concrete runs. -/
instance {ε α : Type} [DecidableEq ε] [DecidableEq α] : DecidableEq (Except ε α) :=
  fun a b =>
    match a, b with
    | .error x, .error y =>
      decidable_of_iff (x = y) ⟨fun h => by rw [h], fun h => by injection h⟩
    | .ok x, .ok y =>
      decidable_of_iff (x = y) ⟨fun h => by rw [h], fun h => by injection h⟩
    | .error _, .ok _ => .isFalse (fun h => Except.noConfusion h)
    | .ok _, .error _ => .isFalse (fun h => Except.noConfusion h)

/-- Rebuilding an element from its four projections yields the element. -/
theorem Xml.eta (x : Xml) : Xml.mk x.tag x.attrs x.text x.children = x := by
  cases x
  rfl

/-- C7: for every document whose root element is not saml2p:Response,
create_light_response fails immediately with a ValidationError whose message
is "Wrong root element: ..." naming the actual root tag and whose path is
just that tag; the result does not depend on the attributes, text or children
of the root, so no further traversal of the document occurs. -/
theorem c7_wrong_root_element (t : String) (a : List (String × String))
    (x : Option String) (ch : List Xml) (h : t ≠ "saml2p:Response") :
    create_light_response (.mk t a x ch) = .error ⟨[t], wrongRootMsg t⟩ := by
  simp [create_light_response, Xml.tag, h]

/-- Witness for C7 at the test's input: a root tag wrongRoot. -/
theorem c7_wrong_root_element_witness :
    ("wrongRoot" : String) ≠ "saml2p:Response" ∧
      create_light_response (.mk ("wrongRoot") [] none []) =
        .error ⟨["wrongRoot"], wrongRootMsg ("wrongRoot")⟩ :=
  ⟨by decide, c7_wrong_root_element ("wrongRoot") [] none [] (by decide)⟩

/-- C10: the SAMLRequest and SAMLResponse wrappers accept an absent document
and an absent relay state, and their string conversion is total over such
values: the wrapper built from (none, none) renders exactly
"relay_state = None, document = None". -/
theorem c10_wrapper_str_none :
    SAMLRequest.str { document := none, relay_state := none } =
        "relay_state = None, document = None" ∧
      SAMLResponse.str { document := none, relay_state := none } =
        "relay_state = None, document = None" :=
  ⟨rfl, rfl⟩

/-- C9: from_light_request is pure and deterministic: two invocations with
the same light request, destination and issue instant produce structurally
equal results, and the produced document depends only on those arguments —
its IssueInstant attribute is the injected instant, ID and Destination come
from the arguments, and no relay state is attached. -/
theorem c9_from_light_request_deterministic (lr : LightRequest)
    (dest t : String) :
    from_light_request lr dest t = from_light_request lr dest t ∧
      (from_light_request lr dest t).relay_state = none ∧
      (from_light_request lr dest t).document.map Xml.tag =
        some "saml2p:AuthnRequest" ∧
      (from_light_request lr dest t).document.map
          (fun d => getAttr ("IssueInstant") d.attrs) = some (some t) ∧
      (from_light_request lr dest t).document.map
          (fun d => getAttr ("ID") d.attrs) = some (some lr.id) ∧
      (from_light_request lr dest t).document.map
          (fun d => getAttr ("Destination") d.attrs) = some (some dest) := by
  refine ⟨rfl, rfl, ?_, ?_, ?_, ?_⟩ <;>
    simp [from_light_request, getAttr, Xml.tag, Xml.attrs]

/-- The full output contract of create_eidas_attribute: the parent is
returned with the new RequestedAttribute appended as its last child, and the
child carries Name, FriendlyName (dictionary entry when the URI is known,
otherwise the trailing path segment), the fixed NameFormat constant and
isRequired rendered as the literal true/false. -/
def createEidasAttributeSpec (parent : Xml) (uri : String) (required : Bool) : Prop :=
  (create_eidas_attribute parent uri required).1.tag = parent.tag ∧
  (create_eidas_attribute parent uri required).1.attrs = parent.attrs ∧
  (create_eidas_attribute parent uri required).1.text = parent.text ∧
  (create_eidas_attribute parent uri required).1.children =
    parent.children ++ [(create_eidas_attribute parent uri required).2] ∧
  (create_eidas_attribute parent uri required).2.tag = "eidas:RequestedAttribute" ∧
  (create_eidas_attribute parent uri required).2.children = [] ∧
  getAttr ("Name") (create_eidas_attribute parent uri required).2.attrs = some uri ∧
  getAttr ("FriendlyName") (create_eidas_attribute parent uri required).2.attrs =
    some ((lookupFriendly uri).getD (trailingSegment uri)) ∧
  getAttr ("NameFormat") (create_eidas_attribute parent uri required).2.attrs =
    some NAME_FORMAT_URI ∧
  getAttr ("isRequired") (create_eidas_attribute parent uri required).2.attrs =
    some (if required then "true" else "false")

/-- C8: for every parent element, non-empty attribute URI and required flag,
create_eidas_attribute succeeds (it is total) and appends and returns a
RequestedAttribute child with the advertised Name, FriendlyName, NameFormat
and isRequired values. -/
theorem c8_create_eidas_attribute (parent : Xml) (uri : String)
    (required : Bool) (h : uri ≠ "") :
    createEidasAttributeSpec parent uri required := by
  refine ⟨rfl, rfl, rfl, ?_, rfl, rfl, ?_, ?_, ?_, ?_⟩ <;>
    simp [create_eidas_attribute, getAttr, Xml.tag, Xml.attrs, Xml.text,
          Xml.children, boolAttr]

/-- Witness for C8 at the test's inputs: the known CurrentFamilyName URI
(dictionary entry FamilyName). -/
theorem c8_create_eidas_attribute_witness :
    ("http://eidas.europa.eu/attributes/naturalperson/CurrentFamilyName" : String) ≠ "" ∧
      createEidasAttributeSpec (.mk ("whatever") [] none [])
        ("http://eidas.europa.eu/attributes/naturalperson/CurrentFamilyName") true :=
  ⟨by decide,
   c8_create_eidas_attribute (.mk ("whatever") [] none [])
     ("http://eidas.europa.eu/attributes/naturalperson/CurrentFamilyName") true (by decide)⟩

/-- A list of children none of which contains an EncryptedData element has no
EncryptedData child at its top level. -/
theorem findEncryptedData_eq_none (ch : List Xml)
    (h : containsTagList ("xenc:EncryptedData") ch = false) :
    findEncryptedData ch = none := by
  induction ch with
  | nil => rfl
  | cons c rest ih =>
    rw [containsTagList, Bool.or_eq_false_iff] at h
    obtain ⟨h1, h2⟩ := h
    cases c with
    | mk tg a x cc =>
      rw [containsTag, Bool.or_eq_false_iff, beq_eq_false_iff_ne] at h1
      rw [findEncryptedData]
      simp only [Xml.tag, if_neg h1.1]
      exact ih h2

/-- Decryption leaves a child without any EncryptedData element untouched. -/
theorem decryptOne_id (key : String) (c : Xml)
    (h : containsTag ("xenc:EncryptedData") c = false) :
    decryptOne key c = .ok c := by
  cases c with
  | mk tg a x cc =>
    rw [containsTag, Bool.or_eq_false_iff] at h
    by_cases htg : tg = "saml2:EncryptedAssertion"
    · rw [decryptOne]
      simp only [Xml.tag, Xml.children, if_pos htg,
                 findEncryptedData_eq_none cc h.2]
    · rw [decryptOne]
      simp only [Xml.tag, if_neg htg]

/-- Decryption leaves a child list without any EncryptedData untouched. -/
theorem decryptChildren_id (key : String) (ch : List Xml)
    (h : containsTagList ("xenc:EncryptedData") ch = false) :
    decryptChildren key ch = .ok ch := by
  induction ch with
  | nil => rfl
  | cons c rest ih =>
    rw [containsTagList, Bool.or_eq_false_iff] at h
    rw [decryptChildren, decryptOne_id key c h.1, ih h.2]

/-- C3: for every XML document with no EncryptedData element anywhere and any
key, decrypt_xml is a no-op: it succeeds with the document unchanged, so the
serialized document after the call is identical to the serialization before
the call. -/
theorem c3_decrypt_xml_noop (doc : Xml) (key : String)
    (h : containsTag ("xenc:EncryptedData") doc = false) :
    decrypt_xml doc key = .ok doc ∧
      (decrypt_xml doc key).map dumpXml = .ok (dumpXml doc) := by
  have hch : containsTagList ("xenc:EncryptedData") doc.children = false := by
    cases doc with
    | mk tg a x cc =>
      rw [containsTag, Bool.or_eq_false_iff] at h
      exact h.2
  have hmain : decrypt_xml doc key = .ok doc := by
    rw [decrypt_xml, decryptChildren_id key doc.children hch]
    exact congrArg Except.ok (Xml.eta doc)
  exact ⟨hmain, by rw [hmain]; rfl⟩

/-- Witness for C3: the not-encrypted saml response document of the test
suite, reduced to its skeleton, with the right key file. -/
theorem c3_decrypt_xml_noop_witness :
    containsTag ("xenc:EncryptedData")
        (.mk ("saml2p:Response") [] none
          [.mk ("saml2p:Status") [] none [],
           .mk ("saml2:Assertion") [] none []]) = false ∧
      decrypt_xml
          (.mk ("saml2p:Response") [] none
            [.mk ("saml2p:Status") [] none [],
             .mk ("saml2:Assertion") [] none []]) ("key.pem") =
        .ok (.mk ("saml2p:Response") [] none
          [.mk ("saml2p:Status") [] none [],
           .mk ("saml2:Assertion") [] none []]) :=
  ⟨by rfl,
   (c3_decrypt_xml_noop
     (.mk ("saml2p:Response") [] none
       [.mk ("saml2p:Status") [] none [],
        .mk ("saml2:Assertion") [] none []]) ("key.pem") (by rfl)).1⟩

/-- The EncryptedData subtree of the concrete encrypted response used to
compare the observed decryption failure with the spec's claim: its ciphertext
decrypts to an Assertion and its recipient key is key.pem. -/
def c2encData : Xml :=
  .mk ("xenc:EncryptedData") [("Recipient", "key.pem")] none
    [.mk ("saml2:Assertion") [] none []]

/-- A response document carrying one encrypted assertion. -/
def c2encDoc : Xml :=
  .mk ("saml2p:Response") [] none
    [.mk ("saml2p:Status") [] none [],
     .mk ("saml2:EncryptedAssertion") [] none [c2encData]]

/-- C2, counterexample: decrypting a document carrying an encrypted assertion
with a key that does not match the recipient key fails with the underlying
xmlsec library error — not with the spec's DecryptionError — exactly as the
repository's test test_decrypt_xml_with_document_encrypted_wrong_key
expects. -/
theorem c2_counterexample :
    decrypt_xml c2encDoc ("wrong-key.pem") = .error DecryptError.xmlsecError ∧
      decrypt_xml c2encDoc ("wrong-key.pem") ≠ .error DecryptError.decryptionError := by
  refine ⟨rfl, ?_⟩
  intro hcontra
  rw [show decrypt_xml c2encDoc ("wrong-key.pem") =
        .error DecryptError.xmlsecError from rfl] at hcontra
  exact absurd (Except.error.inj hcontra) (by decide)

/-- The first encrypted subtree determines the first decryption attempt: with
a key that does not match its recipient, the walk fails there with the xmlsec
library error. -/
theorem decryptChildren_wrong_key (key : String) (ed : Xml)
    (h2 : key ≠ (getAttr ("Recipient") ed.attrs).getD ("")) :
    ∀ ch : List Xml, firstEncryptedData ch = some ed →
      decryptChildren key ch = .error DecryptError.xmlsecError := by
  intro ch
  induction ch with
  | nil => intro h; simp [firstEncryptedData] at h
  | cons c rest ih =>
    intro h
    rw [firstEncryptedData] at h
    by_cases htg : c.tag = "saml2:EncryptedAssertion"
    · rw [if_pos htg] at h
      cases hfd : findEncryptedData c.children with
      | some ed2 =>
        rw [hfd] at h
        have hed : ed2 = ed := Option.some.inj h
        subst hed
        simp only [decryptChildren, decryptOne, htg, if_true, hfd, if_neg h2]
      | none =>
        rw [hfd] at h
        simp only [decryptChildren, decryptOne, htg, if_true, hfd, ih h]
    · rw [if_neg htg] at h
      simp only [decryptChildren, decryptOne, if_neg htg, ih h]

/-- C2 as amended: for every document containing an encrypted assertion,
decrypt_xml with a key that does not match the recipient key referenced by
its first encrypted subtree fails — with the underlying xmlsec library
error, the error class the repository's own test expects, rather than a
dedicated DecryptionError. -/
theorem c2_decrypt_xml_wrong_key (doc : Xml) (key : String) (ed : Xml)
    (h1 : firstEncryptedData doc.children = some ed)
    (h2 : key ≠ (getAttr ("Recipient") ed.attrs).getD ("")) :
    decrypt_xml doc key = .error DecryptError.xmlsecError := by
  rw [decrypt_xml, decryptChildren_wrong_key key ed h2 doc.children h1]

/-- Witness for the amended C2 at the concrete encrypted document. -/
theorem c2_decrypt_xml_wrong_key_witness :
    firstEncryptedData c2encDoc.children = some c2encData ∧
      ("wrong-key.pem" : String) ≠
        (getAttr ("Recipient") c2encData.attrs).getD ("") ∧
      decrypt_xml c2encDoc ("wrong-key.pem") = .error DecryptError.xmlsecError :=
  ⟨rfl, by decide,
   c2_decrypt_xml_wrong_key c2encDoc ("wrong-key.pem") c2encData rfl (by decide)⟩

/-- A success-status Response whose assertion payload is an EncryptedAssertion
with the given children, mirroring the documents built by the tests
test_create_light_response_missing_decrypted_assertion and
test_create_light_response_decrypted_assertion_unexpected_element. -/
def mkEncDoc (encCh : List Xml) : Xml :=
  .mk ("saml2p:Response") [("ID", "rid"), ("InResponseTo", "irt")] none
    [.mk ("saml2p:Status") [] none
       [.mk ("saml2p:StatusCode") [("Value", SUCCESS_URI)] none []],
     .mk ("saml2:EncryptedAssertion") [] none encCh]

/-- C5: on a success-status response, an EncryptedAssertion with zero children
fails with "Missing assertion element." at the EncryptedAssertion, and an
EncryptedAssertion whose child is not an saml2:Assertion fails with
"Unexpected element: ..." naming that child, at the child's path. -/
theorem c5_encrypted_assertion_payload (c : Xml) (h : c.tag ≠ "saml2:Assertion") :
    create_light_response (mkEncDoc []) =
        .error ⟨["saml2p:Response", "saml2:EncryptedAssertion"],
                missingAssertionMsg⟩ ∧
      create_light_response (mkEncDoc [c]) =
        .error ⟨["saml2p:Response", "saml2:EncryptedAssertion", c.tag],
                unexpectedMsg c.tag⟩ := by
  refine ⟨rfl, ?_⟩
  cases c with
  | mk tg a x cc =>
    rw [Xml.tag] at h
    simp [mkEncDoc, create_light_response, parseResponseChildren,
          parseStatusChildren, findSubStatusCode, getAttr, Xml.tag, Xml.attrs,
          Xml.children, h]

/-- Witness for C5 at the test's offending child: the element wrong. -/
theorem c5_encrypted_assertion_payload_witness :
    (Xml.mk ("wrong") [] none []).tag ≠ "saml2:Assertion" ∧
      create_light_response (mkEncDoc [.mk ("wrong") [] none []]) =
        .error ⟨["saml2p:Response", "saml2:EncryptedAssertion", "wrong"],
                unexpectedMsg ("wrong")⟩ :=
  ⟨by decide,
   ((c5_encrypted_assertion_payload (.mk ("wrong") [] none []) (by decide)).2)⟩

/-- A SAML status URI other than Success. -/
def REQUESTER_URI : String := "urn:oasis:names:tc:SAML:2.0:status:Requester"

/-- A Response whose top-level status carries the given (non-Success) status
code but which still contains a full assertion with a level of assurance and
an attribute, as the repository's failed-response fixture does (the test
suite expects the failed light response to carry level_of_assurance LOW). -/
def mkFailedDoc (code : String) : Xml :=
  .mk ("saml2p:Response") [("ID", "rid"), ("InResponseTo", "irt")] none
    [.mk ("saml2:Issuer") [] (some "riss") [],
     .mk ("saml2p:Status") [] none
       [.mk ("saml2p:StatusCode") [("Value", code)] none [],
        .mk ("saml2p:StatusMessage") [] (some "Oops.") []],
     .mk ("saml2:Assertion") [] none
       [.mk ("saml2:Issuer") [] (some "aiss") [],
        .mk ("saml2:AuthnStatement") [] none
          [.mk ("saml2:AuthnContext") [] none
            [.mk ("saml2:AuthnContextClassRef") []
              (some "http://eidas.europa.eu/LoA/low") []]],
        .mk ("saml2:AttributeStatement") [] none
          [.mk ("saml2:Attribute")
            [("Name", "http://eidas.europa.eu/attributes/naturalperson/CurrentFamilyName")]
            none
            [.mk ("saml2:AttributeValue") [] (some "Novak") []]]]]

/-- The light response produced for mkFailedDoc REQUESTER_URI. -/
def c1result : LightResponse :=
  { id := some "rid", in_response_to_id := some "irt", issuer := some "aiss",
    ip_address := none,
    level_of_assurance := some LevelOfAssurance.low,
    status := some { failure := true, status_code := some REQUESTER_URI,
                     sub_status_code := none, status_message := some "Oops." },
    attributes :=
      [("http://eidas.europa.eu/attributes/naturalperson/CurrentFamilyName",
        ["Novak"])] }

/-- C1, counterexample: a response whose top-level status is not Success but
which contains an assertion yields a LightResponse whose level_of_assurance
is present (LOW) and whose attributes are non-empty — the assertion content
is traversed, not ignored, exactly as the repository's failed-response test
(which expects level_of_assurance LOW on the failed light response)
requires. -/
theorem c1_counterexample :
    create_light_response (mkFailedDoc REQUESTER_URI) = .ok c1result ∧
      c1result.status.map Status.failure = some true ∧
      c1result.level_of_assurance = some LevelOfAssurance.low ∧
      c1result.attributes ≠ [] := by
  refine ⟨by decide, rfl, rfl, by decide⟩

/-- C1 as amended: for every non-Success status code, create_light_response
on a failure response still populates id, in_response_to_id, issuer and the
failed status — and any assertion content present is traversed as for a
success response, populating level_of_assurance and the attributes from it
rather than leaving them absent. -/
theorem c1_failed_response_traverses_assertion (code : String)
    (h : code ≠ SUCCESS_URI) :
    create_light_response (mkFailedDoc code) =
      .ok { id := some "rid", in_response_to_id := some "irt",
            issuer := some "aiss", ip_address := none,
            level_of_assurance := some LevelOfAssurance.low,
            status := some { failure := true, status_code := some code,
                             sub_status_code := none,
                             status_message := some "Oops." },
            attributes :=
              [("http://eidas.europa.eu/attributes/naturalperson/CurrentFamilyName",
                ["Novak"])] } := by
  have hb : (some code == some SUCCESS_URI) = false := by
    simp [beq_eq_false_iff_ne, h]
  simp [mkFailedDoc, create_light_response, parseResponseChildren,
        parseStatusChildren, parseAssertionChildren, parseAuthnStatement,
        parseAttributes, parseAttributeValues, findAuthnContext, findClassRef,
        findSubStatusCode, loaFromUri, getAttr, Xml.tag, Xml.attrs, Xml.text,
        Xml.children, hb]

/-- Witness for the amended C1 at the Requester status code. -/
theorem c1_failed_response_traverses_assertion_witness :
    REQUESTER_URI ≠ SUCCESS_URI ∧
      create_light_response (mkFailedDoc REQUESTER_URI) =
        .ok { id := some "rid", in_response_to_id := some "irt",
              issuer := some "aiss", ip_address := none,
              level_of_assurance := some LevelOfAssurance.low,
              status := some { failure := true,
                               status_code := some REQUESTER_URI,
                               sub_status_code := none,
                               status_message := some "Oops." },
              attributes :=
                [("http://eidas.europa.eu/attributes/naturalperson/CurrentFamilyName",
                  ["Novak"])] } :=
  ⟨by decide, c1_failed_response_traverses_assertion REQUESTER_URI (by decide)⟩

/-- A fully valid success-status response document, with hooks appending
extra children at each structural location: rE under the root, sE under
Status, scE under StatusCode, aE under the Assertion, sjE under Subject,
sjcE under SubjectConfirmation, asE under AuthnStatement, acE under
AuthnContext, atsE under AttributeStatement and atE under the Attribute. -/
def mkDoc (rE sE scE aE sjE sjcE asE acE atsE atE : List Xml) : Xml :=
  .mk ("saml2p:Response") [("ID", "rid"), ("InResponseTo", "irt")] none
    ([.mk ("saml2:Issuer") [] (some "riss") [],
      .mk ("saml2p:Status") [] none
        ([.mk ("saml2p:StatusCode") [("Value", SUCCESS_URI)] none scE] ++ sE),
      .mk ("saml2:Assertion") [] none
        ([.mk ("saml2:Issuer") [] (some "aiss") [],
          .mk ("saml2:Subject") [] none
            ([.mk ("saml2:NameID") [] (some "subject-id") [],
              .mk ("saml2:SubjectConfirmation") [] none
                ([.mk ("saml2:SubjectConfirmationData")
                   [("Address", "217.31.205.1")] none []] ++ sjcE)] ++ sjE),
          .mk ("saml2:AuthnStatement") [] none
            ([.mk ("saml2:AuthnContext") [] none
               ([.mk ("saml2:AuthnContextClassRef") []
                  (some "http://eidas.europa.eu/LoA/low") []] ++ acE)] ++ asE),
          .mk ("saml2:AttributeStatement") [] none
            ([.mk ("saml2:Attribute")
               [("Name",
                 "http://eidas.europa.eu/attributes/naturalperson/PersonIdentifier")]
               none
               ([.mk ("saml2:AttributeValue") [] (some "CZ/CZ/ff70c9dd") []]
                 ++ atE)] ++ atsE)] ++ aE)] ++ rE)

/-- The light response produced for the plain mkDoc document. -/
def mkDocResult : LightResponse :=
  { id := some "rid", in_response_to_id := some "irt", issuer := some "aiss",
    ip_address := some "217.31.205.1",
    level_of_assurance := some LevelOfAssurance.low,
    status := some { failure := false, status_code := some SUCCESS_URI,
                     sub_status_code := none, status_message := none },
    attributes :=
      [("http://eidas.europa.eu/attributes/naturalperson/PersonIdentifier",
        ["CZ/CZ/ff70c9dd"])] }

/-- Every element name the response walk recognizes at some level; an element
whose tag is outside this list is unrecognized everywhere. -/
def recognizedTags : List String :=
  ["saml2:Issuer", "saml2p:Status", "saml2:Assertion", "saml2:EncryptedAssertion",
   "saml2p:StatusCode", "saml2p:StatusMessage",
   "saml2:Subject", "saml2:NameID", "saml2:SubjectConfirmation",
   "saml2:SubjectConfirmationData",
   "saml2:AuthnStatement", "saml2:AuthnContext", "saml2:AuthnContextClassRef",
   "saml2:AttributeStatement", "saml2:Attribute", "saml2:AttributeValue"]

/-- Adding the extra child inside StatusCode, inside AuthnStatement and
inside AuthnContext leaves the produced light response unchanged. -/
def extraChildTolerated (e : Xml) : Prop :=
  create_light_response (mkDoc [] [] [e] [] [] [] [e] [e] [] []) =
    create_light_response (mkDoc [] [] [] [] [] [] [] [] [] [])

/-- Adding the extra child at any other structural location of the valid
document fails with a ValidationError naming the child at its full path. -/
def extraChildRejected (e : Xml) : Prop :=
  create_light_response (mkDoc [e] [] [] [] [] [] [] [] [] []) =
      .error ⟨["saml2p:Response", e.tag], unexpectedMsg e.tag⟩ ∧
  create_light_response (mkDoc [] [e] [] [] [] [] [] [] [] []) =
      .error ⟨["saml2p:Response", "saml2p:Status", e.tag], unexpectedMsg e.tag⟩ ∧
  create_light_response (mkDoc [] [] [] [e] [] [] [] [] [] []) =
      .error ⟨["saml2p:Response", "saml2:Assertion", e.tag],
              unexpectedMsg e.tag⟩ ∧
  create_light_response (mkDoc [] [] [] [] [e] [] [] [] [] []) =
      .error ⟨["saml2p:Response", "saml2:Assertion", "saml2:Subject", e.tag],
              unexpectedMsg e.tag⟩ ∧
  create_light_response (mkDoc [] [] [] [] [] [e] [] [] [] []) =
      .error ⟨["saml2p:Response", "saml2:Assertion", "saml2:Subject",
               "saml2:SubjectConfirmation", e.tag], unexpectedMsg e.tag⟩ ∧
  create_light_response (mkDoc [] [] [] [] [] [] [] [] [e] []) =
      .error ⟨["saml2p:Response", "saml2:Assertion", "saml2:AttributeStatement",
               e.tag], unexpectedMsg e.tag⟩ ∧
  create_light_response (mkDoc [] [] [] [] [] [] [] [] [] [e]) =
      .error ⟨["saml2p:Response", "saml2:Assertion", "saml2:AttributeStatement",
               "saml2:Attribute", e.tag], unexpectedMsg e.tag⟩

/-- C4: on a valid success-status response, an extra unrecognized child is
tolerated in exactly the three allowlisted locations — inside StatusCode,
inside AuthnStatement and inside AuthnContext — leaving the produced
LightResponse unchanged, while an unrecognized child at any other location
of the document causes a ValidationError. -/
theorem c4_extra_children_allowlist (e : Xml) (h : e.tag ∉ recognizedTags) :
    create_light_response (mkDoc [] [] [] [] [] [] [] [] [] []) =
        .ok mkDocResult ∧
      extraChildTolerated e ∧ extraChildRejected e := by
  cases e with
  | mk tg a x cc =>
    simp only [recognizedTags, Xml.tag, List.mem_cons, List.not_mem_nil,
               or_false, not_or] at h
    obtain ⟨g1, g2, g3, g4, g5, g6, g7, g8, g9, g10, g11, g12, g13, g14,
            g15, g16⟩ := h
    refine ⟨by decide, ?_, ?_, ?_, ?_, ?_, ?_, ?_, ?_⟩ <;>
      simp [mkDoc, mkDocResult, extraChildTolerated, create_light_response,
            parseResponseChildren, parseStatusChildren, parseAssertionChildren,
            parseSubject, parseSubjectConfirmation, parseAuthnStatement,
            parseAttributes, parseAttributeValues, findAuthnContext,
            findClassRef, findSubStatusCode, loaFromUri, getAttr,
            Xml.tag, Xml.attrs, Xml.text, Xml.children,
            g1, g2, g3, g4, g5, g6, g7, g8, g9, g10, g11, g12, g13, g14,
            g15, g16]

/-- Witness for C4 at the test's extra element: the element something. -/
theorem c4_extra_children_allowlist_witness :
    (Xml.mk ("something") [] none []).tag ∉ recognizedTags ∧
      (create_light_response (mkDoc [] [] [] [] [] [] [] [] [] []) =
          .ok mkDocResult ∧
        extraChildTolerated (.mk ("something") [] none []) ∧
        extraChildRejected (.mk ("something") [] none [])) :=
  ⟨by decide, c4_extra_children_allowlist (.mk ("something") [] none []) (by decide)⟩

/-- C6: on a well-formed success-status response, one extraneous unrecognized
child under AttributeStatement, or under the Attribute within it, makes
create_light_response fail with a ValidationError whose message names the
child and whose root-first angle-bracket path ends in the child's qualified
name. -/
theorem c6_attribute_statement_unexpected_child (c : Xml)
    (h1 : c.tag ≠ "saml2:Attribute") (h2 : c.tag ≠ "saml2:AttributeValue") :
    (create_light_response (mkDoc [] [] [] [] [] [] [] [] [c] []) =
        .error ⟨["saml2p:Response", "saml2:Assertion", "saml2:AttributeStatement",
                 c.tag], unexpectedMsg c.tag⟩ ∧
      (["saml2p:Response", "saml2:Assertion", "saml2:AttributeStatement",
        c.tag].getLast? = some c.tag) ∧
      renderPath ["saml2p:Response", "saml2:Assertion", "saml2:AttributeStatement",
                  c.tag] =
        "<saml2p:Response><saml2:Assertion><saml2:AttributeStatement>" ++
          "<" ++ c.tag ++ ">") ∧
    (create_light_response (mkDoc [] [] [] [] [] [] [] [] [] [c]) =
        .error ⟨["saml2p:Response", "saml2:Assertion", "saml2:AttributeStatement",
                 "saml2:Attribute", c.tag], unexpectedMsg c.tag⟩ ∧
      (["saml2p:Response", "saml2:Assertion", "saml2:AttributeStatement",
        "saml2:Attribute", c.tag].getLast? = some c.tag) ∧
      renderPath ["saml2p:Response", "saml2:Assertion", "saml2:AttributeStatement",
                  "saml2:Attribute", c.tag] =
        "<saml2p:Response><saml2:Assertion><saml2:AttributeStatement><saml2:Attribute>" ++
          "<" ++ c.tag ++ ">") := by
  cases c with
  | mk tg a x cc =>
    rw [Xml.tag] at h1 h2
    refine ⟨⟨?_, by simp, ?_⟩, ⟨?_, by simp, ?_⟩⟩ <;>
      simp [mkDoc, create_light_response, parseResponseChildren,
            parseStatusChildren, parseAssertionChildren, parseSubject,
            parseSubjectConfirmation, parseAuthnStatement, parseAttributes,
            parseAttributeValues, findAuthnContext, findClassRef,
            findSubStatusCode, loaFromUri, getAttr, renderPath,
            Xml.tag, Xml.attrs, Xml.text, Xml.children, h1, h2]

/-- Witness for C6 at the test's offending child: the element wrong. -/
theorem c6_attribute_statement_unexpected_child_witness :
    (Xml.mk ("wrong") [] none []).tag ≠ "saml2:Attribute" ∧
      (Xml.mk ("wrong") [] none []).tag ≠ "saml2:AttributeValue" ∧
      create_light_response (mkDoc [] [] [] [] [] [] [] []
          [.mk ("wrong") [] none []] []) =
        .error ⟨["saml2p:Response", "saml2:Assertion", "saml2:AttributeStatement",
                 "wrong"], unexpectedMsg ("wrong")⟩ :=
  ⟨by decide, by decide,
   ((c6_attribute_statement_unexpected_child (.mk ("wrong") [] none [])
      (by decide) (by decide)).1).1⟩

end EidasNode
